import Mathlib

/-
  Shallow embedding of the xeus kernel core (src/src/xkernel_core.cpp) and of
  the mock interpreter (src/src/xmock_interpreter.hpp).

  The dispatcher is modelled as a pure function from a kernel configuration, a
  dispatcher state and a deserialized wire message to a new state together with
  the ordered list of observable effects it performs: publications on iopub,
  replies sent on the shell or control socket, calls into the interpreter,
  calls into the transport (abort_queue, stop) and stderr log lines.  A reply
  or publication effect records the arguments handed to the server send
  functions before serialization; the fresh header built by make_header is
  represented by its msg_type field (its msg_id and date are nondeterministic
  and no verified property inspects them).

  The JSON values (xjson, an nlohmann-style JSON type) are modelled by the
  mutual inductive Json below; the nlohmann accessors used by the source
  (value with a default, operator bracket assignment, is_null, find) are
  modelled with their throwing behaviour: value on a non-object throws, and a
  present field of the wrong type throws, exactly as in nlohmann json.
-/

namespace Xeus

mutual
inductive Json where
  | null
  | bool (b : Bool)
  | num (n : Int)
  | str (s : String)
  | arr (xs : JsonArr)
  | obj (fields : JsonObj)
deriving DecidableEq, Repr

inductive JsonArr where
  | nil
  | cons (hd : Json) (tl : JsonArr)
deriving DecidableEq, Repr

inductive JsonObj where
  | nil
  | cons (key : String) (val : Json) (tl : JsonObj)
deriving DecidableEq, Repr
end

/-- Association lookup in a JSON object, as nlohmann find on an object. -/
def JsonObj.find : JsonObj → String → Option Json
  | .nil, _ => none
  | .cons k v tl, key => if k = key then some v else tl.find key

/-- Insertion as nlohmann operator bracket assignment on an object: replace
the value of an existing key in place, append a fresh key at the end. -/
def JsonObj.insert : JsonObj → String → Json → JsonObj
  | .nil, key, v => .cons key v .nil
  | .cons k w tl, key, v =>
    if k = key then .cons k v tl else .cons k w (tl.insert key v)

/-- View of a JSON object as an association list. -/
def JsonObj.toList : JsonObj → List (String × Json)
  | .nil => []
  | .cons k v tl => (k, v) :: tl.toList

/-- Build a JSON object from an association list. -/
def JsonObj.ofList : List (String × Json) → JsonObj
  | [] => .nil
  | (k, v) :: tl => .cons k v (JsonObj.ofList tl)

/-- The empty JSON object, xjson::object(). -/
def Json.emptyObj : Json := Json.obj JsonObj.nil

/-- xjson::is_null(). -/
def Json.isNull : Json → Bool
  | .null => true
  | _ => false

/-- Field access on a JSON value: some value when the value is an object
containing the key, none otherwise.  Used to state claims about field
presence. -/
def Json.get? : Json → String → Option Json
  | .obj fields, key => fields.find key
  | _, _ => none

/-- Exceptions thrown by the JSON accessors and by std::string::replace;
all are caught as std::exception by the dispatcher where the source wraps
calls in try blocks. -/
inductive XErr where
  | typeError (msg : String)
  | outOfRange (msg : String)
deriving DecidableEq, Repr

/-- xjson::value(key, string default): throws a type error on a non-object,
returns the default when the key is absent, throws when the present value is
not a string. -/
def Json.valueStr : Json → String → String → Except XErr String
  | .obj fields, key, dflt =>
    match fields.find key with
    | none => .ok dflt
    | some (.str s) => .ok s
    | some _ => .error (.typeError "type must be string")
  | _, _, _ => .error (.typeError "cannot use value() with this type")

/-- xjson::value(key, bool default), with the same throwing behaviour. -/
def Json.valueBool : Json → String → Bool → Except XErr Bool
  | .obj fields, key, dflt =>
    match fields.find key with
    | none => .ok dflt
    | some (.bool b) => .ok b
    | some _ => .error (.typeError "type must be boolean")
  | _, _, _ => .error (.typeError "cannot use value() with this type")

/-- xjson::value(key, int default), with the same throwing behaviour. -/
def Json.valueInt : Json → String → Int → Except XErr Int
  | .obj fields, key, dflt =>
    match fields.find key with
    | none => .ok dflt
    | some (.num n) => .ok n
    | some _ => .error (.typeError "type must be number")
  | _, _, _ => .error (.typeError "cannot use value() with this type")

/-- get_json_node(content, key): a pointer to the member when present, null
otherwise; xjson::find on a non-object returns the end iterator, so this
never throws. -/
def Json.getNode : Json → String → Option Json
  | .obj fields, key => fields.find key
  | _, _ => none

/-- Assignment reply[key] = v as in nlohmann: a null value first becomes an
empty object; assignment on a non-object non-null value throws. -/
def Json.setField : Json → String → Json → Except XErr Json
  | .null, key, v => .ok (.obj (JsonObj.cons key v .nil))
  | .obj fields, key, v => .ok (.obj (fields.insert key v))
  | _, _, _ => .error (.typeError "cannot use operator[] with this type")

deriving instance DecidableEq for Except

/-- Modelled from the spec: the typed decode errors of the message codec
(section 4.2); xmessage::deserialize itself is not part of the sources under
verification, so dispatch below is parametrized by the outcome of
deserialization. -/
inductive DecodeError where
  | MalformedFrame
  | Truncated
  | BadSignature
  | BadJson
deriving DecidableEq, Repr

/-- The channel enumeration of the source (stdin traffic has its own entry
point and iopub is reached only through publish). -/
inductive Channel where
  | SHELL
  | CONTROL
deriving DecidableEq, Repr

/-- The structured in-core message (xmessage): routing identities plus the
four JSON frames.  Identity frames are opaque; they are modelled as strings. -/
structure XMessage where
  identities : List String
  header : Json
  parent_header : Json
  metadata : Json
  content : Json
deriving DecidableEq, Repr

/-- xhistory_arguments, field for field. -/
structure XHistoryArguments where
  m_hist_access_type : String
  m_output : Bool
  m_raw : Bool
  m_session : Int
  m_start : Int
  m_stop : Int
  m_n : Int
  m_pattern : String
  m_unique : Bool
deriving DecidableEq, Repr

/-- Observable effects of the dispatcher, in program order.  publish and send
record the semantic content of the outbound message before serialization
(topic or channel, the msg_type of the fresh header, the parent header, the
metadata and the content; send also records the identity frames).  The interp
effects record the arguments of the calls into the interpreter collaborator;
abortQueue and stop record the calls into the transport collaborator; logErr
records a stderr line. -/
inductive Effect where
  | publish (topic : String) (msg_type : String) (parent : Json) (metadata : Json) (content : Json)
  | send (c : Channel) (ids : List String) (msg_type : String) (parent : Json) (metadata : Json) (content : Json)
  | abortQueue (timeout : Int)
  | stop
  | logErr (line : String)
  | interpExecute (code : String) (silent : Bool) (store_history : Bool) (user_expressions : Option Json) (allow_stdin : Bool)
  | interpComplete (code : String) (cursor_pos : Int)
  | interpInspect (code : String) (cursor_pos : Int) (detail_level : Int)
  | interpHistory (args : XHistoryArguments)
  | interpIsComplete (code : String)
  | interpKernelInfo
  | interpInterrupt
deriving DecidableEq, Repr

/-- The interpreter collaborator: each semantic operation may return a JSON
reply or throw (modelled by Except). -/
structure Interpreter where
  execute_request : String → Bool → Bool → Option Json → Bool → Except XErr Json
  complete_request : String → Int → Except XErr Json
  inspect_request : String → Int → Int → Except XErr Json
  history_request : XHistoryArguments → Except XErr Json
  is_complete_request : String → Except XErr Json
  kernel_info_request : Except XErr Json
  interrupt_request : Except XErr Unit

/-- The mock interpreter of src/src/xmock_interpreter.hpp: every operation
returns xjson(), that is JSON null, and never throws. -/
def xmock_interpreter : Interpreter where
  execute_request := fun _ _ _ _ _ => .ok Json.null
  complete_request := fun _ _ => .ok Json.null
  inspect_request := fun _ _ _ => .ok Json.null
  history_request := fun _ => .ok Json.null
  is_complete_request := fun _ => .ok Json.null
  kernel_info_request := .ok Json.null
  interrupt_request := .ok ()

/-- An interpreter whose every JSON-returning operation returns the given
value; used to instantiate theorems at concrete inputs. -/
def const_interpreter (j : Json) : Interpreter where
  execute_request := fun _ _ _ _ _ => .ok j
  complete_request := fun _ _ => .ok j
  inspect_request := fun _ _ _ => .ok j
  history_request := fun _ => .ok j
  is_complete_request := fun _ => .ok j
  kernel_info_request := .ok j
  interrupt_request := .ok ()

/-- Mutable dispatcher state: the tracked parent (m_parent_id and
m_parent_header of xkernel_core) and the comm registry of the comm manager,
a finite map from comm_id to target name, together with the set of
registered target names. -/
structure KernelState where
  m_parent_id : List String
  m_parent_header : Json
  comms : List (String × String)
  targets : List String
deriving DecidableEq, Repr

/-- Immutable kernel configuration: the identity triple, the value returned
by iso8601_now() during this dispatch, and the interpreter collaborator. -/
structure Kernel where
  m_kernel_id : String
  m_user_name : String
  m_session_id : String
  now : String
  interp : Interpreter

/-- Result of a handler or of a dispatch entry point: the state after the
call, the effects performed, and the exception escaping the call, when one
does.  Effects performed before a throw are retained. -/
structure HRes where
  state : KernelState
  effects : List Effect
  thrown : Option XErr

/-- get_topic. -/
def get_topic (k : Kernel) (msg_type : String) : String :=
  "kernel_core." ++ k.m_kernel_id ++ "." ++ msg_type

/-- publish_message: a publication carrying the current parent header. -/
def publish_message (k : Kernel) (st : KernelState) (msg_type : String)
    (metadata : Json) (content : Json) : Effect :=
  .publish (get_topic k msg_type) msg_type st.m_parent_header metadata content

/-- publish_status. -/
def publish_status (k : Kernel) (st : KernelState) (status : String) : Effect :=
  publish_message k st "status" Json.emptyObj
    (Json.obj (JsonObj.cons "execution_state" (Json.str status) JsonObj.nil))

/-- get_metadata. -/
def get_metadata (k : Kernel) : Json :=
  Json.obj (JsonObj.cons "started" (Json.str k.now) JsonObj.nil)

/-- The four-argument send_reply: reply on the given channel with the current
parent identities and parent header. -/
def send_reply (st : KernelState) (reply_type : String)
    (metadata : Json) (content : Json) (c : Channel) : Effect :=
  .send c st.m_parent_id reply_type st.m_parent_header metadata content

/-- Modelled from the spec: the advertised protocol version (section 6); the
constant get_protocol_version lives outside the sources under verification. -/
def get_protocol_version : String := "5.3"

/-- xkernel_core::execute_request.  The whole body runs inside a try block
whose catch logs to stderr, so no exception escapes this handler.  The
extraction order, the forcing of store_history by silent, the computation of
status before the reply is sent, and the abort_queue condition follow the
source line by line. -/
def execute_request (k : Kernel) (st : KernelState) (request : XMessage) (_c : Channel) : HRes :=
  match request.content.valueStr "code" "" with
  | .error _ => ⟨st, [.logErr "ERROR: during execute_request"], none⟩
  | .ok code =>
  match request.content.valueBool "silent" false with
  | .error _ => ⟨st, [.logErr "ERROR: during execute_request"], none⟩
  | .ok silent =>
  match request.content.valueBool "store_history" true with
  | .error _ => ⟨st, [.logErr "ERROR: during execute_request"], none⟩
  | .ok store_history0 =>
  let store_history := store_history0 && !silent
  let user_expression := request.content.getNode "user_expressions"
  match request.content.valueBool "allow_stdin" true with
  | .error _ => ⟨st, [.logErr "ERROR: during execute_request"], none⟩
  | .ok allow_stdin =>
  match request.content.valueBool "stop_on_error" false with
  | .error _ => ⟨st, [.logErr "ERROR: during execute_request"], none⟩
  | .ok stop_on_error =>
  let metadata := get_metadata k
  match k.interp.execute_request code silent store_history user_expression allow_stdin with
  | .error _ =>
      ⟨st, [.interpExecute code silent store_history user_expression allow_stdin,
            .logErr "ERROR: during execute_request"], none⟩
  | .ok reply =>
  match reply.valueStr "status" "error" with
  | .error _ =>
      ⟨st, [.interpExecute code silent store_history user_expression allow_stdin,
            .logErr "ERROR: during execute_request"], none⟩
  | .ok status =>
      ⟨st, [.interpExecute code silent store_history user_expression allow_stdin,
            send_reply st "execute_reply" metadata reply _c] ++
           (if !silent && status == "error" && stop_on_error
            then [Effect.abortQueue 50] else []), none⟩

/-- xkernel_core::complete_request.  Note that the source passes the string
"complete_request", not "complete_reply", as the reply type of send_reply. -/
def complete_request (k : Kernel) (st : KernelState) (request : XMessage) (c : Channel) : HRes :=
  match request.content.valueStr "code" "" with
  | .error e => ⟨st, [], some e⟩
  | .ok code =>
  match request.content.valueInt "cursor_pos" (-1) with
  | .error e => ⟨st, [], some e⟩
  | .ok cursor_pos =>
  match k.interp.complete_request code cursor_pos with
  | .error e => ⟨st, [.interpComplete code cursor_pos], some e⟩
  | .ok reply =>
      ⟨st, [.interpComplete code cursor_pos,
            send_reply st "complete_request" Json.emptyObj reply c], none⟩

/-- xkernel_core::inspect_request. -/
def inspect_request (k : Kernel) (st : KernelState) (request : XMessage) (c : Channel) : HRes :=
  match request.content.valueStr "code" "" with
  | .error e => ⟨st, [], some e⟩
  | .ok code =>
  match request.content.valueInt "cursor_pos" (-1) with
  | .error e => ⟨st, [], some e⟩
  | .ok cursor_pos =>
  match request.content.valueInt "detail_level" 0 with
  | .error e => ⟨st, [], some e⟩
  | .ok detail_level =>
  match k.interp.inspect_request code cursor_pos detail_level with
  | .error e => ⟨st, [.interpInspect code cursor_pos detail_level], some e⟩
  | .ok reply =>
      ⟨st, [.interpInspect code cursor_pos detail_level,
            send_reply st "inspect_reply" Json.emptyObj reply c], none⟩

/-- xkernel_core::history_request. -/
def history_request (k : Kernel) (st : KernelState) (request : XMessage) (c : Channel) : HRes :=
  match request.content.valueStr "hist_access_type" "tail" with
  | .error e => ⟨st, [], some e⟩
  | .ok hat =>
  match request.content.valueBool "output" false with
  | .error e => ⟨st, [], some e⟩
  | .ok output =>
  match request.content.valueBool "raw" false with
  | .error e => ⟨st, [], some e⟩
  | .ok raw =>
  match request.content.valueInt "session" 0 with
  | .error e => ⟨st, [], some e⟩
  | .ok session =>
  match request.content.valueInt "start" 0 with
  | .error e => ⟨st, [], some e⟩
  | .ok start =>
  match request.content.valueInt "stop" 0 with
  | .error e => ⟨st, [], some e⟩
  | .ok stop =>
  match request.content.valueInt "n" 0 with
  | .error e => ⟨st, [], some e⟩
  | .ok n =>
  match request.content.valueStr "pattern" "" with
  | .error e => ⟨st, [], some e⟩
  | .ok pat =>
  match request.content.valueBool "unique" false with
  | .error e => ⟨st, [], some e⟩
  | .ok uniq =>
  let args : XHistoryArguments := ⟨hat, output, raw, session, start, stop, n, pat, uniq⟩
  match k.interp.history_request args with
  | .error e => ⟨st, [.interpHistory args], some e⟩
  | .ok reply =>
      ⟨st, [.interpHistory args, send_reply st "history_reply" Json.emptyObj reply c], none⟩

/-- xkernel_core::is_complete_request. -/
def is_complete_request (k : Kernel) (st : KernelState) (request : XMessage) (c : Channel) : HRes :=
  match request.content.valueStr "code" "" with
  | .error e => ⟨st, [], some e⟩
  | .ok code =>
  match k.interp.is_complete_request code with
  | .error e => ⟨st, [.interpIsComplete code], some e⟩
  | .ok reply =>
      ⟨st, [.interpIsComplete code, send_reply st "is_complete_reply" Json.emptyObj reply c], none⟩

/-- The comms object built by the loop of xkernel_core::comm_info_request:
for each registered comm whose target name passes the filter, insert an
entry comm_id maps-to (target_name maps-to name). -/
def comm_info_comms (target_name : String) : List (String × String) → JsonObj
  | [] => JsonObj.nil
  | (id, name) :: tl =>
    if target_name == "" || name == target_name
    then JsonObj.cons id (Json.obj (JsonObj.cons "target_name" (Json.str name) JsonObj.nil))
           (comm_info_comms target_name tl)
    else comm_info_comms target_name tl

/-- xkernel_core::comm_info_request.  The source builds the comms object by
iterating the comm registry (a map with unique keys, modelled by the comms
association list) and inserting one entry per passing comm; since the ids are
unique the insertions never overwrite and the loop builds comm_info_comms. -/
def comm_info_request (_k : Kernel) (st : KernelState) (request : XMessage) (c : Channel) : HRes :=
  match (if request.content.isNull then Except.ok "" else request.content.valueStr "target_name" "") with
  | .error e => ⟨st, [], some e⟩
  | .ok target_name =>
    let comms := comm_info_comms target_name st.comms
    let reply := Json.obj (JsonObj.cons "comms" (Json.obj comms)
                   (JsonObj.cons "status" (Json.str "ok") JsonObj.nil))
    ⟨st, [send_reply st "comm_info_reply" Json.emptyObj reply c], none⟩

/-- xkernel_core::kernel_info_request: take the interpreter info object and
inject the protocol_version field. -/
def kernel_info_request (k : Kernel) (st : KernelState) (_request : XMessage) (c : Channel) : HRes :=
  match k.interp.kernel_info_request with
  | .error e => ⟨st, [.interpKernelInfo], some e⟩
  | .ok reply =>
  match reply.setField "protocol_version" (Json.str get_protocol_version) with
  | .error e => ⟨st, [.interpKernelInfo], some e⟩
  | .ok reply2 =>
      ⟨st, [.interpKernelInfo, send_reply st "kernel_info_reply" Json.emptyObj reply2 c], none⟩

/-- xkernel_core::shutdown_request: stop the transport, publish the shutdown
broadcast, send the reply. -/
def shutdown_request (k : Kernel) (st : KernelState) (request : XMessage) (c : Channel) : HRes :=
  match request.content.valueBool "restart" false with
  | .error e => ⟨st, [], some e⟩
  | .ok restart =>
    let reply := Json.obj (JsonObj.cons "restart" (Json.bool restart) JsonObj.nil)
    ⟨st, [.stop, publish_message k st "shutdown" Json.emptyObj reply,
          send_reply st "shutdown_reply" Json.emptyObj reply c], none⟩

/-- xkernel_core::interrupt_request. -/
def interrupt_request (k : Kernel) (st : KernelState) (_request : XMessage) (c : Channel) : HRes :=
  match k.interp.interrupt_request with
  | .error e => ⟨st, [.interpInterrupt], some e⟩
  | .ok _ =>
      ⟨st, [.interpInterrupt, send_reply st "interrupt_reply" Json.emptyObj Json.emptyObj c], none⟩

/-- Modelled from the spec: xcomm_manager::comm_open (section 4.4; the comm
manager implementation is not among the sources under verification).  Extract
comm_id and target_name; a duplicate open for an existing comm_id is ignored
(section 3 invariant); when the target is registered the session is stored
and the target handler invoked (an interpreter-side upcall with no effect
observed here); otherwise a comm_close publication for that comm_id is sent
and the message dropped. -/
def comm_open (k : Kernel) (st : KernelState) (request : XMessage) (_c : Channel) : HRes :=
  match request.content.valueStr "comm_id" "" with
  | .error e => ⟨st, [], some e⟩
  | .ok comm_id =>
  match request.content.valueStr "target_name" "" with
  | .error e => ⟨st, [], some e⟩
  | .ok target_name =>
  if (st.comms.lookup comm_id).isSome then ⟨st, [], none⟩
  else if target_name ∈ st.targets then
    ⟨{ st with comms := st.comms ++ [(comm_id, target_name)] }, [], none⟩
  else
    ⟨st, [publish_message k st "comm_close"
            Json.emptyObj (Json.obj (JsonObj.cons "comm_id" (Json.str comm_id) JsonObj.nil))], none⟩

/-- Modelled from the spec: xcomm_manager::comm_msg (section 4.4): look the
comm_id up and deliver the data to the session message callback (an
interpreter-side upcall with no effect observed here); silently dropped when
unknown. -/
def comm_msg (_k : Kernel) (st : KernelState) (request : XMessage) (_c : Channel) : HRes :=
  match request.content.valueStr "comm_id" "" with
  | .error e => ⟨st, [], some e⟩
  | .ok _comm_id => ⟨st, [], none⟩

/-- Modelled from the spec: xcomm_manager::comm_close (section 4.4): remove
the session for comm_id from the registry; idempotent. -/
def comm_close (_k : Kernel) (st : KernelState) (request : XMessage) (_c : Channel) : HRes :=
  match request.content.valueStr "comm_id" "" with
  | .error e => ⟨st, [], some e⟩
  | .ok comm_id =>
      ⟨{ st with comms := st.comms.filter (fun p => p.1 ≠ comm_id) }, [], none⟩

/-- The type of the entries of the handler table. -/
def Handler : Type :=
  Kernel → KernelState → XMessage → Channel → HRes

/-- xkernel_core::get_handler over the table filled by the constructor: the
twelve registered message types, nullptr otherwise. -/
def get_handler (msg_type : String) : Option Handler :=
  if msg_type = "execute_request" then some execute_request
  else if msg_type = "complete_request" then some complete_request
  else if msg_type = "inspect_request" then some inspect_request
  else if msg_type = "history_request" then some history_request
  else if msg_type = "is_complete_request" then some is_complete_request
  else if msg_type = "comm_info_request" then some comm_info_request
  else if msg_type = "comm_open" then some comm_open
  else if msg_type = "comm_close" then some comm_close
  else if msg_type = "comm_msg" then some comm_msg
  else if msg_type = "kernel_info_request" then some kernel_info_request
  else if msg_type = "shutdown_request" then some shutdown_request
  else if msg_type = "interrupt_request" then some interrupt_request
  else none

/-- xkernel_core::set_parent. -/
def set_parent (st : KernelState) (parent_id : List String) (parent_header : Json) : KernelState :=
  { st with m_parent_id := parent_id, m_parent_header := parent_header }

/-- xkernel_core::dispatch.  The deser argument is the outcome of
xmessage::deserialize on the wire message (the codec is outside the sources
under verification; the spec, section 4.2, parses the four signed frames as
JSON without further validation).  On a decode error the dispatcher logs and
returns.  Otherwise it records the parent, publishes busy, extracts msg_type
from the header (an extraction that throws out of dispatch when the header
carries a non-string msg_type, with no idle published), looks the handler up,
runs it with its exceptions caught and logged, and publishes idle. -/
def dispatch (k : Kernel) (st : KernelState) (deser : Except DecodeError XMessage)
    (c : Channel) : HRes :=
  match deser with
  | .error _ => ⟨st, [.logErr "ERROR: could not deserialize message"], none⟩
  | .ok msg =>
    let st1 := set_parent st msg.identities msg.header
    let busy := publish_status k st1 "busy"
    match msg.header.valueStr "msg_type" "" with
    | .error e => ⟨st1, [busy], some e⟩
    | .ok msg_type =>
      match get_handler msg_type with
      | none =>
          ⟨st1, [busy, .logErr "ERROR: received unknown message",
                 publish_status k st1 "idle"], none⟩
      | some handler =>
          let r := handler k st1 msg c
          match r.thrown with
          | none => ⟨r.state, busy :: r.effects ++ [publish_status k r.state "idle"], none⟩
          | some _ =>
              ⟨r.state, busy :: r.effects ++
                 [.logErr "ERROR: received bad message",
                  publish_status k r.state "idle"], none⟩

/-- xkernel_core::dispatch_shell. -/
def dispatch_shell (k : Kernel) (st : KernelState) (deser : Except DecodeError XMessage) : HRes :=
  dispatch k st deser Channel.SHELL

/-- xkernel_core::dispatch_control. -/
def dispatch_control (k : Kernel) (st : KernelState) (deser : Except DecodeError XMessage) : HRes :=
  dispatch k st deser Channel.CONTROL

/-- xkernel_core::dispatch_stdin: deserialize (logging and returning on a
decode error), read msg_type from the header into a local, and return; the
dispatcher state is not touched and no handler runs. -/
def dispatch_stdin (_k : Kernel) (st : KernelState) (deser : Except DecodeError XMessage) : HRes :=
  match deser with
  | .error _ => ⟨st, [.logErr "ERROR: could not deserialize message"], none⟩
  | .ok msg =>
    match msg.header.valueStr "msg_type" "" with
    | .error e => ⟨st, [], some e⟩
    | .ok _msg_type => ⟨st, [], none⟩

/-- Index of the last occurrence of a character in a list, as
std::string::find_last_of. -/
def lastIdxOf : List Char → Char → Option Nat
  | [], _ => none
  | x :: xs, c =>
    match lastIdxOf xs c with
    | some i => some (i + 1)
    | none => if x = c then some 0 else none

/-- std::string::replace(pos, count, repl) on the character list of the
string: the count is clamped to the remaining length by take and drop. -/
def listReplaceAt (l : List Char) (pos count : Nat) (repl : List Char) : List Char :=
  l.take pos ++ repl ++ l.drop (pos + count)

/-- xkernel_core::abort_request, the abort-queue drain callback: deserialize
(logging and returning on a decode error), rewrite msg_type by replacing the
eight characters from its last underscore with the six characters of
"_reply" (std::string::replace throws out of range when the type has no
underscore at all), and send a status error reply on the shell channel with
the identities and header of the drained message. -/
def abort_request (_k : Kernel) (st : KernelState) (deser : Except DecodeError XMessage) : HRes :=
  match deser with
  | .error _ => ⟨st, [.logErr "ERROR: during execute_request:"], none⟩
  | .ok msg =>
  match msg.header.valueStr "msg_type" "" with
  | .error e => ⟨st, [], some e⟩
  | .ok msg_type =>
  match lastIdxOf msg_type.data '_' with
  | none => ⟨st, [], some (XErr.outOfRange "basic_string::replace")⟩
  | some i =>
    let reply_type := String.mk (listReplaceAt msg_type.data i 8 "_reply".data)
    ⟨st, [.send Channel.SHELL msg.identities reply_type msg.header Json.emptyObj
            (Json.obj (JsonObj.cons "status" (Json.str "error") JsonObj.nil))], none⟩

/-- A status publication effect (msg_type "status" on iopub). -/
def Effect.isStatusPub : Effect → Bool
  | .publish _ msg_type _ _ _ => msg_type = "status"
  | _ => false

/-- The effect respects the given request context: a send carries the given
identities and the given parent header, a publication carries the given
parent header; other effects carry no addressing. -/
def Effect.usesParent (ids : List String) (ph : Json) : Effect → Bool
  | .publish _ _ p _ _ => decide (p = ph)
  | .send _ i _ p _ _ => decide (i = ids) && decide (p = ph)
  | _ => true

/-- Conjunction of the two per-effect handler obligations. -/
def Effect.ctxOk (ids : List String) (ph : Json) (e : Effect) : Bool :=
  Effect.usesParent ids ph e && !Effect.isStatusPub e

/-- Contract satisfied by every handler of the table, relied on by the
dispatch level proofs: the parent fields of the state are preserved and every
emitted effect is a non-status effect addressed with the current parent. -/
def HRes.handlerOk (st : KernelState) (r : HRes) : Prop :=
  r.state.m_parent_id = st.m_parent_id ∧
  r.state.m_parent_header = st.m_parent_header ∧
  r.effects.all (Effect.ctxOk st.m_parent_id st.m_parent_header) = true

theorem execute_request_handlerOk (k : Kernel) (st : KernelState) (request : XMessage)
    (c : Channel) : (execute_request k st request c).handlerOk st := by
  unfold execute_request HRes.handlerOk
  iterate 10 (all_goals (try split); all_goals (try simp [Effect.ctxOk, Effect.usesParent,
    Effect.isStatusPub, send_reply, publish_message, get_metadata]))
  all_goals (intros; subst_vars; try simp)

theorem complete_request_handlerOk (k : Kernel) (st : KernelState) (request : XMessage)
    (c : Channel) : (complete_request k st request c).handlerOk st := by
  unfold complete_request HRes.handlerOk
  iterate 10 (all_goals (try split); all_goals (try simp [Effect.ctxOk, Effect.usesParent,
    Effect.isStatusPub, send_reply, publish_message, get_metadata]))
  all_goals (intros; subst_vars; try simp)

theorem inspect_request_handlerOk (k : Kernel) (st : KernelState) (request : XMessage)
    (c : Channel) : (inspect_request k st request c).handlerOk st := by
  unfold inspect_request HRes.handlerOk
  iterate 10 (all_goals (try split); all_goals (try simp [Effect.ctxOk, Effect.usesParent,
    Effect.isStatusPub, send_reply, publish_message, get_metadata]))
  all_goals (intros; subst_vars; try simp)

theorem history_request_handlerOk (k : Kernel) (st : KernelState) (request : XMessage)
    (c : Channel) : (history_request k st request c).handlerOk st := by
  unfold history_request HRes.handlerOk
  iterate 10 (all_goals (try split); all_goals (try simp [Effect.ctxOk, Effect.usesParent,
    Effect.isStatusPub, send_reply, publish_message, get_metadata]))
  all_goals (intros; subst_vars; try simp)

theorem is_complete_request_handlerOk (k : Kernel) (st : KernelState) (request : XMessage)
    (c : Channel) : (is_complete_request k st request c).handlerOk st := by
  unfold is_complete_request HRes.handlerOk
  iterate 10 (all_goals (try split); all_goals (try simp [Effect.ctxOk, Effect.usesParent,
    Effect.isStatusPub, send_reply, publish_message, get_metadata]))
  all_goals (intros; subst_vars; try simp)

theorem comm_info_request_handlerOk (k : Kernel) (st : KernelState) (request : XMessage)
    (c : Channel) : (comm_info_request k st request c).handlerOk st := by
  unfold comm_info_request HRes.handlerOk
  iterate 10 (all_goals (try split); all_goals (try simp [Effect.ctxOk, Effect.usesParent,
    Effect.isStatusPub, send_reply, publish_message, get_metadata]))
  all_goals (intros; subst_vars; try simp)

theorem kernel_info_request_handlerOk (k : Kernel) (st : KernelState) (request : XMessage)
    (c : Channel) : (kernel_info_request k st request c).handlerOk st := by
  unfold kernel_info_request HRes.handlerOk
  iterate 10 (all_goals (try split); all_goals (try simp [Effect.ctxOk, Effect.usesParent,
    Effect.isStatusPub, send_reply, publish_message, get_metadata]))
  all_goals (intros; subst_vars; try simp)

theorem shutdown_request_handlerOk (k : Kernel) (st : KernelState) (request : XMessage)
    (c : Channel) : (shutdown_request k st request c).handlerOk st := by
  unfold shutdown_request HRes.handlerOk
  iterate 10 (all_goals (try split); all_goals (try simp [Effect.ctxOk, Effect.usesParent,
    Effect.isStatusPub, send_reply, publish_message, get_metadata]))
  all_goals (intros; subst_vars; try simp)

theorem interrupt_request_handlerOk (k : Kernel) (st : KernelState) (request : XMessage)
    (c : Channel) : (interrupt_request k st request c).handlerOk st := by
  unfold interrupt_request HRes.handlerOk
  iterate 10 (all_goals (try split); all_goals (try simp [Effect.ctxOk, Effect.usesParent,
    Effect.isStatusPub, send_reply, publish_message, get_metadata]))
  all_goals (intros; subst_vars; try simp)

theorem comm_open_handlerOk (k : Kernel) (st : KernelState) (request : XMessage)
    (c : Channel) : (comm_open k st request c).handlerOk st := by
  unfold comm_open HRes.handlerOk
  iterate 10 (all_goals (try split); all_goals (try simp [Effect.ctxOk, Effect.usesParent,
    Effect.isStatusPub, send_reply, publish_message, get_metadata]))
  all_goals (intros; subst_vars; try simp)

theorem comm_msg_handlerOk (k : Kernel) (st : KernelState) (request : XMessage)
    (c : Channel) : (comm_msg k st request c).handlerOk st := by
  unfold comm_msg HRes.handlerOk
  iterate 10 (all_goals (try split); all_goals (try simp [Effect.ctxOk, Effect.usesParent,
    Effect.isStatusPub, send_reply, publish_message, get_metadata]))
  all_goals (intros; subst_vars; try simp)

theorem comm_close_handlerOk (k : Kernel) (st : KernelState) (request : XMessage)
    (c : Channel) : (comm_close k st request c).handlerOk st := by
  unfold comm_close HRes.handlerOk
  iterate 10 (all_goals (try split); all_goals (try simp [Effect.ctxOk, Effect.usesParent,
    Effect.isStatusPub, send_reply, publish_message, get_metadata]))
  all_goals (intros; subst_vars; try simp)

set_option maxHeartbeats 1600000 in
/-- Every entry of the handler table satisfies the handler contract. -/
theorem get_handler_handlerOk (msg_type : String) (h : Handler)
    (hh : get_handler msg_type = some h) (k : Kernel) (st : KernelState)
    (request : XMessage) (c : Channel) : (h k st request c).handlerOk st := by
  unfold get_handler at hh
  split_ifs at hh
  · injection hh with hh; subst hh; exact execute_request_handlerOk k st request c
  · injection hh with hh; subst hh; exact complete_request_handlerOk k st request c
  · injection hh with hh; subst hh; exact inspect_request_handlerOk k st request c
  · injection hh with hh; subst hh; exact history_request_handlerOk k st request c
  · injection hh with hh; subst hh; exact is_complete_request_handlerOk k st request c
  · injection hh with hh; subst hh; exact comm_info_request_handlerOk k st request c
  · injection hh with hh; subst hh; exact comm_open_handlerOk k st request c
  · injection hh with hh; subst hh; exact comm_close_handlerOk k st request c
  · injection hh with hh; subst hh; exact comm_msg_handlerOk k st request c
  · injection hh with hh; subst hh; exact kernel_info_request_handlerOk k st request c
  · injection hh with hh; subst hh; exact shutdown_request_handlerOk k st request c
  · injection hh with hh; subst hh; exact interrupt_request_handlerOk k st request c

/-- The status publication on iopub with the given parent header, as emitted
by publish_status. -/
def statusEff (k : Kernel) (ph : Json) (s : String) : Effect :=
  .publish (get_topic k "status") "status" ph Json.emptyObj
    (Json.obj (JsonObj.cons "execution_state" (Json.str s) JsonObj.nil))

theorem publish_status_eq_statusEff (k : Kernel) (st : KernelState) (s : String) :
    publish_status k st s = statusEff k st.m_parent_header s := rfl

/-- C2: every reply emitted while dispatching a successfully deserialized
message carries the identities of that message and its header as
parent_header, and every publication emitted carries its header as
parent_header (the content of the usesParent predicate), on any channel and
whatever the handler outcome. -/
theorem dispatch_effects_carry_request_parent (k : Kernel) (st : KernelState)
    (msg : XMessage) (c : Channel) :
    (dispatch k st (Except.ok msg) c).effects.all
      (Effect.usesParent msg.identities msg.header) = true := by
  unfold dispatch
  cases hv : msg.header.valueStr "msg_type" "" with
  | error e =>
    simp only [hv]
    simp [publish_status, publish_message, set_parent, Effect.usesParent]
  | ok mt =>
    simp only [hv]
    cases hg : get_handler mt with
    | none =>
      simp only [hg]
      simp [publish_status, publish_message, set_parent, Effect.usesParent]
    | some handler =>
      simp only [hg]
      have hok := get_handler_handlerOk mt handler hg k (set_parent st msg.identities msg.header) msg c
      generalize hr : handler k (set_parent st msg.identities msg.header) msg c = r
      rw [hr] at hok
      obtain ⟨hid, hph, hall⟩ := hok
      have hall2 : ∀ e ∈ r.effects, Effect.usesParent msg.identities msg.header e = true := by
        intro e he
        have h3 := (List.all_eq_true.mp hall) e he
        simp [Effect.ctxOk, Bool.and_eq_true, set_parent] at h3
        exact h3.1
      have hph2 : r.state.m_parent_header = msg.header := by
        rw [hph]; rfl
      cases ht : r.thrown with
      | none =>
        rw [List.all_eq_true]
        intro e he
        simp at he
        rcases he with he | he | he
        · subst he; simp [publish_status, publish_message, set_parent, Effect.usesParent]
        · exact hall2 e he
        · subst he; simp [publish_status, publish_message, Effect.usesParent, hph2]
      | some err =>
        rw [List.all_eq_true]
        intro e he
        simp at he
        rcases he with he | he | he | he
        · subst he; simp [publish_status, publish_message, set_parent, Effect.usesParent]
        · exact hall2 e he
        · subst he; simp [Effect.usesParent]
        · subst he; simp [publish_status, publish_message, Effect.usesParent, hph2]

/-- C1 (amended): dispatch of a successfully deserialized shell or control
message whose msg_type extraction from the header does not throw (the header
is a JSON object whose msg_type field, when present, is a string) publishes
exactly one busy and one idle status, the busy strictly first and the idle
strictly last in the effect trace, with no other status publication in
between, whether or not the msg_type has a registered handler and whether or
not the handler throws; and no exception escapes the dispatcher. -/
theorem getLast?_cons_append_singleton (x y : Effect) (l : List Effect) :
    (x :: (l ++ [y])).getLast? = some y := by
  rw [← List.cons_append, List.getLast?_concat]

theorem getLast?_cons_append_pair (x y z : Effect) (l : List Effect) :
    (x :: (l ++ [y, z])).getLast? = some z := by
  have h : x :: (l ++ [y, z]) = (x :: (l ++ [y])) ++ [z] := by simp
  rw [h, List.getLast?_concat]

theorem dispatch_busy_idle_bracketing (k : Kernel) (st : KernelState) (msg : XMessage)
    (c : Channel) (mt : String) (hmt : msg.header.valueStr "msg_type" "" = Except.ok mt) :
    (dispatch k st (Except.ok msg) c).effects.filter Effect.isStatusPub =
        [statusEff k msg.header "busy", statusEff k msg.header "idle"] ∧
    (dispatch k st (Except.ok msg) c).effects.head? = some (statusEff k msg.header "busy") ∧
    (dispatch k st (Except.ok msg) c).effects.getLast? = some (statusEff k msg.header "idle") ∧
    (dispatch k st (Except.ok msg) c).thrown = none := by
  unfold dispatch
  simp only [hmt]
  cases hg : get_handler mt with
  | none =>
    simp only [hg]
    refine ⟨?_, ?_, ?_, ?_⟩ <;>
      simp [publish_status, publish_message, set_parent, statusEff, Effect.isStatusPub]
  | some handler =>
    simp only [hg]
    have hok := get_handler_handlerOk mt handler hg k (set_parent st msg.identities msg.header) msg c
    generalize hr : handler k (set_parent st msg.identities msg.header) msg c = r
    rw [hr] at hok
    obtain ⟨hid, hph, hall⟩ := hok
    have hph2 : r.state.m_parent_header = msg.header := by
      rw [hph]; rfl
    have hnostatus : r.effects.filter Effect.isStatusPub = [] := by
      rw [List.filter_eq_nil_iff]
      intro e he
      have h3 := (List.all_eq_true.mp hall) e he
      simp [Effect.ctxOk, Bool.and_eq_true] at h3
      simp [h3.2]
    cases ht : r.thrown with
    | none =>
      refine ⟨?_, ?_, ?_, rfl⟩
      · simp [publish_status, publish_message, set_parent, statusEff, Effect.isStatusPub,
          List.filter_append, hnostatus, hph2]
      · simp [publish_status, publish_message, set_parent, statusEff]
      · have h4 := getLast?_cons_append_singleton
          (publish_status k (set_parent st msg.identities msg.header) "busy")
          (publish_status k r.state "idle") r.effects
        simpa [publish_status, publish_message, statusEff, hph2] using h4
    | some err =>
      refine ⟨?_, ?_, ?_, rfl⟩
      · simp [publish_status, publish_message, set_parent, statusEff, Effect.isStatusPub,
          List.filter_append, hnostatus, hph2]
      · simp [publish_status, publish_message, set_parent, statusEff]
      · have h4 := getLast?_cons_append_pair
          (publish_status k (set_parent st msg.identities msg.header) "busy")
          (Effect.logErr "ERROR: received bad message")
          (publish_status k r.state "idle") r.effects
        simpa [publish_status, publish_message, statusEff, hph2] using h4

/-- Fixture kernel: the identity triple of a test launch with the mock
interpreter of src/src/xmock_interpreter.hpp. -/
def kernel0 : Kernel :=
  ⟨"kid", "user", "sess", "2017-01-01T00:00:00Z", xmock_interpreter⟩

/-- Fixture kernel whose interpreter returns the empty JSON object from every
operation. -/
def kernelObj : Kernel :=
  ⟨"kid", "user", "sess", "2017-01-01T00:00:00Z", const_interpreter Json.emptyObj⟩

/-- Fixture initial dispatcher state: empty parent, no comms. -/
def st0 : KernelState := ⟨[], Json.emptyObj, [], []⟩

/-- C3: when deserialization of a shell or control wire message fails with a
decode error, the dispatcher logs the failure and returns: the result carries
exactly one stderr line, no reply, no publication of any kind, no escaping
exception, and the state (in particular m_parent_id and m_parent_header) is
returned unchanged. -/
theorem dispatch_decode_error_drops (k : Kernel) (st : KernelState) (err : DecodeError)
    (c : Channel) :
    dispatch k st (Except.error err) c =
      ⟨st, [Effect.logErr "ERROR: could not deserialize message"], none⟩ := rfl

/-- A request whose header deserializes fine but carries a numeric msg_type;
nothing in the codec rejects it (the four frames are merely parsed as JSON). -/
def msgBadType : XMessage :=
  ⟨["id0"], Json.obj (JsonObj.cons "msg_type" (Json.num 5) JsonObj.nil),
   Json.null, Json.emptyObj, Json.emptyObj⟩

/-- C1 (counterexample): on a successfully deserialized message whose header
has a non-string msg_type, the msg_type extraction throws after busy was
published and before the handler lookup; the dispatch trace contains the busy
status publication and no idle, and the exception escapes the dispatcher. -/
theorem dispatch_busy_without_idle :
    (dispatch kernel0 st0 (Except.ok msgBadType) Channel.SHELL).effects.filter
        Effect.isStatusPub = [statusEff kernel0 msgBadType.header "busy"] ∧
    (dispatch kernel0 st0 (Except.ok msgBadType) Channel.SHELL).thrown =
      some (XErr.typeError "type must be string") := by
  decide

/-- A stdin wire message carrying an input reply. -/
def msgStdin : XMessage :=
  ⟨["idS"], Json.obj (JsonObj.cons "msg_type" (Json.str "input_reply") JsonObj.nil),
   Json.null, Json.emptyObj, Json.emptyObj⟩

/-- C5 (counterexample): dispatch_stdin does not record the parent: after a
successful stdin deserialization the dispatcher state still carries its old
m_parent_id and m_parent_header, which differ from the identities and header
of the stdin message. -/
theorem dispatch_stdin_does_not_record_parent :
    (dispatch_stdin kernel0 st0 (Except.ok msgStdin)).state.m_parent_header ≠
        msgStdin.header ∧
    (dispatch_stdin kernel0 st0 (Except.ok msgStdin)).state.m_parent_id ≠
        msgStdin.identities := by
  decide

/-- C5 (amended): for every stdin wire message that deserializes
successfully, dispatch_stdin performs no handler dispatch and no observable
action at all: the state (including the tracked parent) is returned unchanged
and the effect list is empty. -/
theorem dispatch_stdin_no_dispatch_no_state_change (k : Kernel) (st : KernelState)
    (msg : XMessage) :
    (dispatch_stdin k st (Except.ok msg)).state = st ∧
    (dispatch_stdin k st (Except.ok msg)).effects = [] := by
  unfold dispatch_stdin
  cases hv : msg.header.valueStr "msg_type" "" <;> simp [hv]

/-- A complete_request with code "ab" and cursor_pos 1. -/
def msgComplete : XMessage :=
  ⟨["idC"], Json.obj (JsonObj.cons "msg_type" (Json.str "complete_request") JsonObj.nil),
   Json.null, Json.emptyObj,
   Json.obj (JsonObj.cons "code" (Json.str "ab")
     (JsonObj.cons "cursor_pos" (Json.num 1) JsonObj.nil))⟩

/-- C4: dispatching a complete_request extracts code and cursor_pos, forwards
them to the interpreter complete operation and sends its result as the reply,
but the reply goes out with msg_type "complete_request", not the
"complete_reply" required by the spec and by the claim: the full effect trace
at the failing input, evaluated on the code, shows the send with msg_type
"complete_request". -/
theorem complete_request_reply_type_bug :
    (dispatch kernel0 st0 (Except.ok msgComplete) Channel.SHELL).effects =
      [statusEff kernel0 msgComplete.header "busy",
       Effect.interpComplete "ab" 1,
       Effect.send Channel.SHELL ["idC"] "complete_request" msgComplete.header
         Json.emptyObj Json.null,
       statusEff kernel0 msgComplete.header "idle"] := by
  decide

/-- Every interpreter execute call in the trace passes store_history false. -/
def Effect.storesNoHistory : Effect → Bool
  | .interpExecute _ _ sh _ _ => sh = false
  | _ => true

/-- C6: when the content of an execute_request carries silent equal to true,
every execute call made to the interpreter passes store_history false,
whatever store_history value the content carries (including the default true
when absent). -/
theorem execute_request_silent_forces_store_history_false (k : Kernel) (st : KernelState)
    (request : XMessage) (c : Channel)
    (hsil : request.content.valueBool "silent" false = Except.ok true) :
    (execute_request k st request c).effects.all Effect.storesNoHistory = true := by
  unfold execute_request
  simp only [hsil]
  iterate 10 (all_goals (try split); all_goals (try simp_all [Effect.storesNoHistory, send_reply]))

/-- An execute_request with silent true and store_history true in its content. -/
def msgExecSilent : XMessage :=
  ⟨["idE"], Json.obj (JsonObj.cons "msg_type" (Json.str "execute_request") JsonObj.nil),
   Json.null, Json.emptyObj,
   Json.obj (JsonObj.cons "code" (Json.str "x=1")
     (JsonObj.cons "silent" (Json.bool true)
       (JsonObj.cons "store_history" (Json.bool true) JsonObj.nil)))⟩

/-- C6 (witness): the silent execute_request fixture satisfies the hypothesis
and the conclusion at a concrete input. -/
theorem execute_request_silent_forces_store_history_false_witness :
    msgExecSilent.content.valueBool "silent" false = Except.ok true ∧
    (execute_request kernel0 st0 msgExecSilent Channel.SHELL).effects.all
      Effect.storesNoHistory = true :=
  ⟨by decide,
   execute_request_silent_forces_store_history_false kernel0 st0 msgExecSilent
     Channel.SHELL (by decide)⟩

/-- A kernel_info_request message. -/
def msgKernelInfo : XMessage :=
  ⟨["idK"], Json.obj (JsonObj.cons "msg_type" (Json.str "kernel_info_request") JsonObj.nil),
   Json.null, Json.emptyObj, Json.null⟩

/-- C1 (witness): the bracketing theorem instantiated at a concrete
kernel_info_request. -/
theorem dispatch_busy_idle_bracketing_witness :
    msgKernelInfo.header.valueStr "msg_type" "" = Except.ok "kernel_info_request" ∧
    ((dispatch kernel0 st0 (Except.ok msgKernelInfo) Channel.SHELL).effects.filter
        Effect.isStatusPub =
      [statusEff kernel0 msgKernelInfo.header "busy",
       statusEff kernel0 msgKernelInfo.header "idle"] ∧
    (dispatch kernel0 st0 (Except.ok msgKernelInfo) Channel.SHELL).effects.head? =
      some (statusEff kernel0 msgKernelInfo.header "busy") ∧
    (dispatch kernel0 st0 (Except.ok msgKernelInfo) Channel.SHELL).effects.getLast? =
      some (statusEff kernel0 msgKernelInfo.header "idle") ∧
    (dispatch kernel0 st0 (Except.ok msgKernelInfo) Channel.SHELL).thrown = none) :=
  ⟨by decide,
   dispatch_busy_idle_bracketing kernel0 st0 msgKernelInfo Channel.SHELL
     "kernel_info_request" (by decide)⟩

/-- Equational characterization of execute_request when every content
extraction, the interpreter call and the status extraction succeed: one
interpreter execute call, then the execute_reply carrying the interpreter
object, then the abort_queue call with timeout 50 exactly when silent is
false, the extracted status is "error" and stop_on_error is true. -/
theorem execute_request_spec (k : Kernel) (st : KernelState) (request : XMessage)
    (c : Channel) (code : String) (silent sh0 as soe : Bool) (reply : Json) (status : String)
    (hcode : request.content.valueStr "code" "" = Except.ok code)
    (hsil : request.content.valueBool "silent" false = Except.ok silent)
    (hsh : request.content.valueBool "store_history" true = Except.ok sh0)
    (has : request.content.valueBool "allow_stdin" true = Except.ok as)
    (hsoe : request.content.valueBool "stop_on_error" false = Except.ok soe)
    (hex : k.interp.execute_request code silent (sh0 && !silent)
        (request.content.getNode "user_expressions") as = Except.ok reply)
    (hst : reply.valueStr "status" "error" = Except.ok status) :
    execute_request k st request c =
      ⟨st, [Effect.interpExecute code silent (sh0 && !silent)
              (request.content.getNode "user_expressions") as,
            send_reply st "execute_reply" (get_metadata k) reply c] ++
           (if !silent && status == "error" && soe then [Effect.abortQueue 50] else []),
       none⟩ := by
  unfold execute_request
  simp only [hcode, hsil, hsh, has, hsoe, hex, hst]
  try rfl

/-- An execute_request with stop_on_error true and no silent field. -/
def msgExecStop : XMessage :=
  ⟨["idA"], Json.obj (JsonObj.cons "msg_type" (Json.str "execute_request") JsonObj.nil),
   Json.null, Json.emptyObj,
   Json.obj (JsonObj.cons "code" (Json.str "boom")
     (JsonObj.cons "stop_on_error" (Json.bool true) JsonObj.nil))⟩

/-- C7 (counterexample): with an interpreter whose execute reply is the empty
JSON object, silent false and stop_on_error true, abort_queue with timeout 50
is invoked although the reply does not carry status "error" (it has no status
field at all): the invoked-only-if direction of the claim fails as stated. -/
theorem execute_abort_without_error_status :
    kernelObj.interp.execute_request "boom" false true none true =
        Except.ok Json.emptyObj ∧
    Json.emptyObj.get? "status" = none ∧
    Effect.abortQueue 50 ∈ (execute_request kernelObj st0 msgExecStop Channel.SHELL).effects := by
  decide

/-- C7 (amended): under successful extraction, the first two effects of
execute_request are the interpreter call and the execute_reply carrying the
returned object; abort_queue with timeout 50 is invoked if and only if silent
is false, the status extracted from the reply with default "error" equals
"error", and stop_on_error is true; and no abort_queue call occurs among the
first two effects, so the reply is sent before any abort. -/
theorem execute_request_reply_then_abort (k : Kernel) (st : KernelState) (request : XMessage)
    (c : Channel) (code : String) (silent sh0 as soe : Bool) (reply : Json) (status : String)
    (hcode : request.content.valueStr "code" "" = Except.ok code)
    (hsil : request.content.valueBool "silent" false = Except.ok silent)
    (hsh : request.content.valueBool "store_history" true = Except.ok sh0)
    (has : request.content.valueBool "allow_stdin" true = Except.ok as)
    (hsoe : request.content.valueBool "stop_on_error" false = Except.ok soe)
    (hex : k.interp.execute_request code silent (sh0 && !silent)
        (request.content.getNode "user_expressions") as = Except.ok reply)
    (hst : reply.valueStr "status" "error" = Except.ok status) :
    (execute_request k st request c).effects.take 2 =
      [Effect.interpExecute code silent (sh0 && !silent)
         (request.content.getNode "user_expressions") as,
       send_reply st "execute_reply" (get_metadata k) reply c] ∧
    (Effect.abortQueue 50 ∈ (execute_request k st request c).effects ↔
      (silent = false ∧ status = "error" ∧ soe = true)) ∧
    Effect.abortQueue 50 ∉ (execute_request k st request c).effects.take 2 := by
  rw [execute_request_spec k st request c code silent sh0 as soe reply status
    hcode hsil hsh has hsoe hex hst]
  have hcond2 : (!silent && status == "error" && soe) = true ↔
      (silent = false ∧ status = "error" ∧ soe = true) := by
    simp [Bool.and_eq_true, Bool.not_eq_true', and_assoc]
  refine ⟨rfl, ?_, ?_⟩
  · by_cases hcond : (!silent && status == "error" && soe) = true
    · rw [if_pos hcond]
      simp [send_reply, hcond2.mp hcond]
    · rw [if_neg hcond]
      rw [← hcond2]
      simp [send_reply, hcond]
  · simp [send_reply]

/-- C7 (witness): the amended theorem instantiated at the stop_on_error
fixture with the empty-object interpreter. -/
theorem execute_request_reply_then_abort_witness :
    msgExecStop.content.valueStr "code" "" = Except.ok "boom" ∧
    ((execute_request kernelObj st0 msgExecStop Channel.SHELL).effects.take 2 =
      [Effect.interpExecute "boom" false (true && !false)
         (msgExecStop.content.getNode "user_expressions") true,
       send_reply st0 "execute_reply" (get_metadata kernelObj) Json.emptyObj Channel.SHELL] ∧
    (Effect.abortQueue 50 ∈ (execute_request kernelObj st0 msgExecStop Channel.SHELL).effects ↔
      (false = false ∧ "error" = "error" ∧ true = true)) ∧
    Effect.abortQueue 50 ∉
      (execute_request kernelObj st0 msgExecStop Channel.SHELL).effects.take 2) :=
  ⟨by decide,
   execute_request_reply_then_abort kernelObj st0 msgExecStop Channel.SHELL
     "boom" false true true true Json.emptyObj "error"
     (by decide) (by decide) (by decide) (by decide) (by decide) (by decide) (by decide)⟩

/-- C10: when the interpreter returns an object with no status field and the
request is not silent and has stop_on_error, the status defaults to "error":
the trace is the interpreter call, the execute_reply carrying the returned
object unchanged, and the abort_queue call with timeout 50. -/
theorem execute_request_missing_status_treated_as_error (k : Kernel) (st : KernelState)
    (request : XMessage) (c : Channel) (code : String) (sh0 as : Bool) (fs : JsonObj)
    (hcode : request.content.valueStr "code" "" = Except.ok code)
    (hsil : request.content.valueBool "silent" false = Except.ok false)
    (hsh : request.content.valueBool "store_history" true = Except.ok sh0)
    (has : request.content.valueBool "allow_stdin" true = Except.ok as)
    (hsoe : request.content.valueBool "stop_on_error" false = Except.ok true)
    (hex : k.interp.execute_request code false (sh0 && !false)
        (request.content.getNode "user_expressions") as = Except.ok (Json.obj fs))
    (hfind : fs.find "status" = none) :
    (execute_request k st request c).effects =
      [Effect.interpExecute code false (sh0 && !false)
         (request.content.getNode "user_expressions") as,
       send_reply st "execute_reply" (get_metadata k) (Json.obj fs) c,
       Effect.abortQueue 50] ∧
    (Json.obj fs).get? "status" = none := by
  have hst : (Json.obj fs).valueStr "status" "error" = Except.ok "error" := by
    simp [Json.valueStr, hfind]
  rw [execute_request_spec k st request c code false sh0 as true (Json.obj fs) "error"
    hcode hsil hsh has hsoe hex hst]
  refine ⟨?_, ?_⟩
  · simp
  · simp [Json.get?, hfind]

/-- C10 (witness): the missing-status theorem instantiated at the
stop_on_error fixture with the empty-object interpreter. -/
theorem execute_request_missing_status_treated_as_error_witness :
    msgExecStop.content.valueBool "stop_on_error" false = Except.ok true ∧
    ((execute_request kernelObj st0 msgExecStop Channel.SHELL).effects =
      [Effect.interpExecute "boom" false (true && !false)
         (msgExecStop.content.getNode "user_expressions") true,
       send_reply st0 "execute_reply" (get_metadata kernelObj) (Json.obj JsonObj.nil)
         Channel.SHELL,
       Effect.abortQueue 50] ∧
    (Json.obj JsonObj.nil).get? "status" = none) :=
  ⟨by decide,
   execute_request_missing_status_treated_as_error kernelObj st0 msgExecStop Channel.SHELL
     "boom" true true JsonObj.nil
     (by decide) (by decide) (by decide) (by decide) (by decide) (by decide) (by decide)⟩

theorem lastIdxOf_concat_request (pre : List Char) :
    lastIdxOf (pre ++ ['_', 'r', 'e', 'q', 'u', 'e', 's', 't']) '_' = some pre.length := by
  induction pre with
  | nil => decide
  | cons x xs ih => simp [lastIdxOf, ih]

theorem listReplaceAt_suffix (pre : List Char) :
    listReplaceAt (pre ++ ['_', 'r', 'e', 'q', 'u', 'e', 's', 't']) pre.length 8
      ['_', 'r', 'e', 'p', 'l', 'y'] = pre ++ ['_', 'r', 'e', 'p', 'l', 'y'] := by
  unfold listReplaceAt
  rw [List.take_left]
  have hlen : (pre ++ ['_', 'r', 'e', 'q', 'u', 'e', 's', 't']).length ≤ pre.length + 8 := by
    rw [List.length_append]
    exact Nat.le_refl _
  rw [List.drop_eq_nil_of_le hlen]
  simp

/-- C8: the abort-queue drain callback, on a successfully deserialized
message whose msg_type ends in "_request", sends on the shell channel a reply
whose msg_type is the original with the final "_request" replaced by
"_reply", whose content is the status error object, with the identities of
the drained message and its header as parent_header; the state is untouched
and nothing escapes. -/
theorem abort_request_rewrites_request_reply (k : Kernel) (st : KernelState)
    (msg : XMessage) (mt : String) (pre : List Char)
    (hmt : msg.header.valueStr "msg_type" "" = Except.ok mt)
    (hends : mt.data = pre ++ "_request".data) :
    abort_request k st (Except.ok msg) =
      ⟨st, [Effect.send Channel.SHELL msg.identities (String.mk (pre ++ "_reply".data))
              msg.header Json.emptyObj
              (Json.obj (JsonObj.cons "status" (Json.str "error") JsonObj.nil))], none⟩ := by
  unfold abort_request
  simp only [hmt, hends, lastIdxOf_concat_request, listReplaceAt_suffix]

/-- A drained complete_request, as in the abort scenario of the spec. -/
def msgDrained : XMessage :=
  ⟨["idD"], Json.obj (JsonObj.cons "msg_type" (Json.str "complete_request") JsonObj.nil),
   Json.null, Json.emptyObj, Json.null⟩

/-- C8 (witness): the drain callback on a queued complete_request produces a
complete_reply with the status error content and the drained identities. -/
theorem abort_request_rewrites_request_reply_witness :
    (msgDrained.header.valueStr "msg_type" "" = Except.ok "complete_request" ∧
     "complete_request".data = "complete".data ++ "_request".data) ∧
    abort_request kernel0 st0 (Except.ok msgDrained) =
      ⟨st0, [Effect.send Channel.SHELL ["idD"] (String.mk ("complete".data ++ "_reply".data))
              msgDrained.header Json.emptyObj
              (Json.obj (JsonObj.cons "status" (Json.str "error") JsonObj.nil))], none⟩ :=
  ⟨⟨by decide, by decide⟩,
   abort_request_rewrites_request_reply kernel0 st0 msgDrained "complete_request"
     "complete".data (by decide) (by decide)⟩

/-- The comms object entry built for one comm by comm_info_request. -/
def commEntry (name : String) : Json :=
  Json.obj (JsonObj.cons "target_name" (Json.str name) JsonObj.nil)

theorem comm_info_comms_mem (tn : String) (l : List (String × String)) (id name : String) :
    (id, commEntry name) ∈ (comm_info_comms tn l).toList ↔
      ((id, name) ∈ l ∧ (tn = "" ∨ name = tn)) := by
  induction l with
  | nil => simp [comm_info_comms, JsonObj.toList]
  | cons p tl ih =>
    obtain ⟨pid, pname⟩ := p
    simp only [comm_info_comms]
    by_cases hc : (tn == "" || pname == tn) = true
    · rw [if_pos hc]
      simp only [JsonObj.toList, List.mem_cons, ih]
      simp only [Bool.or_eq_true, beq_iff_eq] at hc
      constructor
      · rintro (heq | ⟨h1, h2⟩)
        · have h1 : id = pid := congrArg Prod.fst heq
          have h2 : commEntry name = commEntry pname := congrArg Prod.snd heq
          have h3 : name = pname := by simpa [commEntry] using h2
          subst h1
          subst h3
          exact ⟨Or.inl rfl, hc⟩
        · exact ⟨Or.inr h1, h2⟩
      · rintro ⟨heq | hmem2, hfil⟩
        · left
          have h1 : id = pid := congrArg Prod.fst heq
          have h3 : name = pname := congrArg Prod.snd heq
          subst h1
          subst h3
          rfl
        · exact Or.inr ⟨hmem2, hfil⟩
    · rw [if_neg hc]
      rw [ih]
      simp only [Bool.or_eq_true, beq_iff_eq, not_or] at hc
      constructor
      · rintro ⟨hmem, hfil⟩
        exact ⟨List.mem_cons_of_mem _ hmem, hfil⟩
      · rintro ⟨hmem, hfil⟩
        rcases List.mem_cons.mp hmem with heq | hmem2
        · exfalso
          have h3 : name = pname := congrArg Prod.snd heq
          rcases hfil with h | h
          · exact hc.1 h
          · exact hc.2 (h3 ▸ h)
        · exact ⟨hmem2, hfil⟩


/-- C9: comm_info_request sends exactly one comm_info_reply whose content is
the object with the comms object and status "ok"; an entry for comm id with a
target name is in the comms object precisely when that comm is registered and
passes the filter: every registered comm when the extracted target_name is
empty, exactly those with equal target name otherwise. -/
theorem comm_info_request_spec (k : Kernel) (st : KernelState) (request : XMessage)
    (c : Channel) (tn : String)
    (htn : (if request.content.isNull then Except.ok ""
            else request.content.valueStr "target_name" "") = Except.ok tn) :
    comm_info_request k st request c =
      ⟨st, [send_reply st "comm_info_reply" Json.emptyObj
          (Json.obj (JsonObj.cons "comms" (Json.obj (comm_info_comms tn st.comms))
            (JsonObj.cons "status" (Json.str "ok") JsonObj.nil))) c], none⟩ ∧
    ∀ id name : String,
      (id, commEntry name) ∈ (comm_info_comms tn st.comms).toList ↔
        ((id, name) ∈ st.comms ∧ (tn = "" ∨ name = tn)) := by
  constructor
  · unfold comm_info_request
    rw [htn]
  · intro id name
    exact comm_info_comms_mem tn st.comms id name

/-- State with three registered comms over two targets. -/
def stComms : KernelState :=
  ⟨[], Json.emptyObj, [("c1", "t"), ("c2", "u"), ("c3", "t")], ["t", "u"]⟩

/-- A comm_info_request filtering on target "t". -/
def msgCommInfo : XMessage :=
  ⟨["idI"], Json.obj (JsonObj.cons "msg_type" (Json.str "comm_info_request") JsonObj.nil),
   Json.null, Json.emptyObj,
   Json.obj (JsonObj.cons "target_name" (Json.str "t") JsonObj.nil)⟩

/-- C9 (witness): the comm_info theorem instantiated at a state with three
comms and a filter on target "t". -/
theorem comm_info_request_spec_witness :
    (if msgCommInfo.content.isNull then Except.ok ""
     else msgCommInfo.content.valueStr "target_name" "") = Except.ok "t" ∧
    (comm_info_request kernel0 stComms msgCommInfo Channel.SHELL =
      ⟨stComms, [send_reply stComms "comm_info_reply" Json.emptyObj
          (Json.obj (JsonObj.cons "comms" (Json.obj (comm_info_comms "t" stComms.comms))
            (JsonObj.cons "status" (Json.str "ok") JsonObj.nil))) Channel.SHELL], none⟩ ∧
    ∀ id name : String,
      (id, commEntry name) ∈ (comm_info_comms "t" stComms.comms).toList ↔
        ((id, name) ∈ stComms.comms ∧ ("t" = "" ∨ name = "t"))) :=
  ⟨by decide,
   comm_info_request_spec kernel0 stComms msgCommInfo Channel.SHELL "t" (by decide)⟩

end Xeus
